import Mathlib

/-!
Verification of the go-tailf tail engine (`tailf.go`, `fileidentity.go`,
`fileidentity_windows.go`).

The Go code is shallowly embedded: each operating-system interaction that a
function performs (seek, stat of the held handle, stat of the path, open,
and the outcome of a buffered read) is supplied as an explicit environment
value, and the Go function becomes a pure Lean function of that environment
and its explicit state.  Go strings are modelled as lists of characters,
`int64` quantities as `Int`, and `uint64` identity fields as `Nat` (they are
only ever compared for equality).
-/

set_option autoImplicit false

namespace Tailf

/-- Go strings, modelled as lists of characters. -/
abbrev GoStr := List Char

/-- Structure `fileIdentity` from `fileidentity.go`: device and inode numbers. -/
structure fileIdentity where
  dev : Nat
  ino : Nat
deriving DecidableEq, Repr

/-- The Go zero value `fileIdentity\x7b\x7d`, the "unknown" sentinel. -/
def zeroIdentity : fileIdentity := ⟨0, 0⟩

/-- The part of `os.FileInfo` the program consults: the size and, when the
platform provides one, the `syscall.Stat_t` device/inode pair.  `sys = none`
models a failed `Sys().(*syscall.Stat_t)` type assertion. -/
structure FileInfo where
  size : Int
  sys : Option (Nat × Nat)
deriving DecidableEq, Repr

/-- Function `getFileIdentity` from `fileidentity.go` (non-Windows build): the
device/inode pair when the `Stat_t` assertion succeeds, else the zero value. -/
def getFileIdentity (info : FileInfo) : fileIdentity :=
  match info.sys with
  | none => ⟨0, 0⟩
  | some (d, i) => ⟨d, i⟩

/-- Function `getFileIdentity` from `fileidentity_windows.go` (Windows build): always
the empty identity. -/
def getFileIdentityWindows (_ : FileInfo) : fileIdentity := ⟨0, 0⟩

/-- An open `*os.File`: an identifier distinguishing distinct handles, and the
position cursor of the handle itself. -/
structure FileHandle where
  id : Nat
  pos : Int
deriving DecidableEq, Repr

/-- A `*bufio.Reader`: the handle it draws from and whether it still caches a
previously observed end-of-file. -/
structure Reader where
  srcId : Nat
  eofCached : Bool
deriving DecidableEq, Repr

/-- Model of `reader.Reset(file)`: reattach to `file` and drop any cached state. -/
def readerReset (_ : Reader) (f : FileHandle) : Reader := ⟨f.id, false⟩

/-- Model of `bufio.NewReader(file)`: a fresh reader over `file`. -/
def bufioNewReader (f : FileHandle) : Reader := ⟨f.id, false⟩

/-- Outcomes of the operating-system calls `checkFileState` performs, in the
order it performs them: `file.Seek(0, io.SeekCurrent)`, `file.Stat()`,
`file.Seek(0, io.SeekStart)`, `os.Stat(path)`, `os.Open(path)`, and
`newFile.Stat()`.  `none` (or `false` for a seek) is a failed call. -/
structure CheckEnv where
  seekCurOk : Bool
  fstat : Option FileInfo
  seekStartOk : Bool
  pathStat : Option FileInfo
  openRes : Option FileHandle
  newFstat : Option FileInfo
deriving DecidableEq, Repr

/-- The errors `checkFileState` can return, one per `fmt.Errorf` site. -/
inductive CheckErr where
  | seekErr
  | statErr
  | seekAfterTrunc
  | statNewFile
deriving DecidableEq, Repr

/-- The five return values of `checkFileState`, plus a record of which handles
it closed (`closedOld`: `file.Close()` on the handle it was given;
`closedNew`: `newFile.Close()` on a freshly opened handle). -/
structure CheckResult where
  file : FileHandle
  reader : Reader
  fileID : fileIdentity
  reopened : Bool
  err : Option CheckErr
  closedOld : Bool
  closedNew : Bool
deriving DecidableEq, Repr

/-- Function `checkFileState` from `tailf.go`: truncation check first (size reported by
the held handle below its position: seek the same handle to offset zero and
reset the reader), then rotation check (identity at the path differs from the
held identity and is not the zero sentinel: open the path, close the old
handle, return the new handle, reader and identity with `reopened = true`).
Failures of `os.Stat(path)` and `os.Open(path)` are absorbed as transient. -/
def checkFileState (env : CheckEnv) (file : FileHandle) (reader : Reader)
    (fileID : fileIdentity) : CheckResult :=
  if env.seekCurOk = false then
    ⟨file, reader, fileID, false, some .seekErr, false, false⟩
  else
    match env.fstat with
    | none => ⟨file, reader, fileID, false, some .statErr, false, false⟩
    | some stat =>
      if stat.size < file.pos then
        if env.seekStartOk = false then
          ⟨file, reader, fileID, false, some .seekAfterTrunc, false, false⟩
        else
          ⟨⟨file.id, 0⟩, readerReset reader ⟨file.id, 0⟩, fileID, false, none,
            false, false⟩
      else
        match env.pathStat with
        | none => ⟨file, reader, fileID, false, none, false, false⟩
        | some pathInfo =>
          if getFileIdentity pathInfo ≠ fileID ∧
              getFileIdentity pathInfo ≠ zeroIdentity then
            match env.openRes with
            | none => ⟨file, reader, fileID, false, none, false, false⟩
            | some newFile =>
              match env.newFstat with
              | none =>
                ⟨file, reader, fileID, false, some .statNewFile, true, true⟩
              | some newInfo =>
                ⟨newFile, bufioNewReader newFile, getFileIdentity newInfo,
                  true, none, true, false⟩
          else
            ⟨file, reader, fileID, false, none, false, false⟩

/-- Model of `strings.TrimRight(line, "\r\n")`: remove the maximal run of trailing
carriage-return and line-feed characters. -/
def trimRightCRLF (s : GoStr) : GoStr :=
  (s.reverse.dropWhile (fun c => c == '\r' || c == '\n')).reverse

/-- A `Line` as emitted on the output channel: the text with trailing newline
characters stripped, and the moment it was read (modelled as a tick of a
logical clock, standing for `time.Now()`). -/
structure Line where
  text : GoStr
  time : Nat
deriving DecidableEq, Repr

/-- The state `tailLoop` threads through its iterations: the `partialLine`
accumulator (`pendingLine` here), the held handle, reader and identity, plus
the history of lines delivered on `t.lines` and the logical clock. -/
structure LoopState where
  pendingLine : GoStr
  file : FileHandle
  reader : Reader
  fileID : fileIdentity
  emitted : List Line
  clock : Nat
deriving DecidableEq, Repr

/-- What one iteration of `tailLoop` observes, resolving its interactions
with the outside world:
`cancelled` — `ctx.Done()` fires at the top-of-loop select;
`ok s sc` — `reader.ReadString` returns `(s, nil)`, which per the `bufio`
contract happens exactly when a terminator was read, `s` ending in it
(`sc` tells whether `ctx.Done()` wins the delivery select);
`eof s env` — `reader.ReadString` returns `(s, io.EOF)` with `s` the bytes
read before exhaustion (no terminator among them), and `env` resolves the
subsequent `checkFileState` calls;
`fatal` — `reader.ReadString` returns an error other than `io.EOF`. -/
inductive ReadEv where
  | cancelled
  | ok (s : GoStr) (sendCancelled : Bool)
  | eof (s : GoStr) (env : CheckEnv)
  | fatal
deriving Repr

/-- The errors `tailLoop` can return: a wrapped read error, or an error
propagated from `checkFileState`. -/
inductive LoopErr where
  | readErr
  | stateErr (e : CheckErr)
deriving DecidableEq, Repr

/-- Result of one `tailLoop` iteration: continue with a new state, or return
from the loop (with `none` on the cancellation paths, which return `nil`). -/
inductive Outcome where
  | next (st : LoopState)
  | stopped (st : LoopState) (err : Option LoopErr)
deriving DecidableEq, Repr

/-- The loop state an outcome carries. -/
def Outcome.state : Outcome → LoopState
  | .next st => st
  | .stopped st _ => st

/-- Value `some e` when the iteration returned from the loop with error value `e`
(where `e = none` models a `nil` return); `none` when the loop continues. -/
def Outcome.stopInfo : Outcome → Option (Option LoopErr)
  | .next _ => none
  | .stopped _ e => some e

/-- One iteration of `tailLoop` from `tailf.go`.  A read advances the handle
position by the bytes read.  On `io.EOF` the bytes are folded into
`partialLine`, `checkFileState` runs, a non-nil error is returned, reopening
clears `partialLine`, and otherwise the reader is reset on the (possibly
repositioned) handle.  On a complete line, any pending content is prepended
and cleared, trailing `"\r\n"` characters are trimmed, an empty result is
skipped, and delivery races against cancellation. -/
def step (st : LoopState) (ev : ReadEv) : Outcome :=
  match ev with
  | .cancelled => .stopped st none
  | .fatal => .stopped st (some .readErr)
  | .eof s env =>
    let file1 : FileHandle := ⟨st.file.id, st.file.pos + (s.length : Int)⟩
    let pending := st.pendingLine ++ s
    let res := checkFileState env file1 st.reader st.fileID
    match res.err with
    | some e =>
      .stopped
        { st with
          pendingLine := pending
          file := res.file
          reader := res.reader
          fileID := res.fileID }
        (some (.stateErr e))
    | none =>
      .next { st with
        pendingLine := if res.reopened then [] else pending,
        file := res.file,
        reader := if res.reopened then res.reader
                  else readerReset res.reader res.file,
        fileID := res.fileID }
  | .ok s sendCancelled =>
    let file1 : FileHandle := ⟨st.file.id, st.file.pos + (s.length : Int)⟩
    let line1 := if st.pendingLine = [] then s else st.pendingLine ++ s
    let line2 := trimRightCRLF line1
    if line2 = [] then
      .next { st with file := file1, pendingLine := [] }
    else if sendCancelled then
      .stopped { st with file := file1, pendingLine := [] } none
    else
      .next
        { st with
          file := file1
          pendingLine := []
          emitted := st.emitted ++ [⟨line2, st.clock⟩]
          clock := st.clock + 1 }

/-- Run `tailLoop` over a list of iteration observations.  The second
component is `none` while the loop is still running when the script ends,
and `some e` when the loop returned with error value `e`. -/
def run (st : LoopState) : List ReadEv → LoopState × Option (Option LoopErr)
  | [] => (st, none)
  | ev :: evs =>
    match step st ev with
    | .next st1 => run st1 evs
    | .stopped st1 e => (st1, some e)

/-- The goroutine started by `Follow` sets `t.err` only when `tailLoop`
returns a non-nil error, so the terminal error slot equals the return
value of the loop. -/
def terminalErrSlot : Option LoopErr → Option LoopErr
  | none => none
  | some e => some e

/-- The option bundle built by `defaults()` and the `With...` options
(`options.go`).  `pollInterval` is in milliseconds; the notify channel is
modelled by whether one was supplied. -/
structure Options where
  fromStart : Bool
  pollIntervalMs : Nat
  hasNotify : Bool
  bufSize : Nat
deriving DecidableEq, Repr

/-- Function `defaults()` from `options.go`. -/
def defaults : Options := ⟨false, 100, false, 4096⟩

/-- Outcomes of the calls `openFile` performs: `os.Open(path)`,
`file.Seek(0, io.SeekEnd)` (returning the end position), `file.Stat()`. -/
structure OpenEnv where
  openRes : Option FileHandle
  seekEndOk : Bool
  endPos : Int
  statRes : Option FileInfo
deriving DecidableEq, Repr

/-- The failure sites of `openFile`, one per early return. -/
inductive OpenErr where
  | openFailed
  | seekFailed
  | statFailed
deriving DecidableEq, Repr

/-- Function `openFile` from `tailf.go`: open the path, seek to the end unless
`fromStart`, stat the handle for the initial identity, build the buffered
reader. -/
def openFile (env : OpenEnv) (o : Options) :
    Except OpenErr (FileHandle × Reader × fileIdentity) :=
  match env.openRes with
  | none => .error .openFailed
  | some f =>
    if o.fromStart = false ∧ env.seekEndOk = false then
      .error .seekFailed
    else
      let f1 : FileHandle := if o.fromStart then f else ⟨f.id, env.endPos⟩
      match env.statRes with
      | none => .error .statFailed
      | some info => .ok (f1, bufioNewReader f1, getFileIdentity info)

/-- A Go error value: a base error or `fmt.Errorf("<tag>%w", inner)`. -/
inductive GoErr where
  | base (e : OpenErr)
  | wrap (tag : GoStr) (inner : GoErr)
deriving DecidableEq, Repr

/-- The message of a Go error, given the messages of the base errors:
wrapping with `fmt.Errorf("<tag>%w", err)` prepends the tag. -/
def errString (baseMsg : OpenErr → GoStr) : GoErr → GoStr
  | .base e => baseMsg e
  | .wrap tag inner => tag ++ errString baseMsg inner

/-- The wrapping tag `"tailf: "` used by `Follow`. -/
def tailfTag : GoStr := "tailf: ".toList

/-- What `Follow` produced: whether the `Tailer` (with its `lines` and
`done` channels) was allocated, the synchronous error, and whether the
background goroutine was started. -/
structure FollowResult where
  tailerCreated : Bool
  err : Option GoErr
  spawned : Bool
deriving DecidableEq, Repr

/-- Function `Follow` from `tailf.go`, up to starting the goroutine: on an `openFile`
failure it returns the error wrapped with the `"tailf: "` tag, creating
nothing and starting nothing; otherwise it allocates the `Tailer` and starts
the background goroutine. -/
def Follow (env : OpenEnv) (o : Options) : FollowResult :=
  match openFile env o with
  | .error e => ⟨false, some (.wrap tailfTag (.base e)), false⟩
  | .ok _ => ⟨true, none, true⟩

/-- The observable shutdown actions of the goroutine started by `Follow`. -/
inductive ShutdownStep where
  | loopExit
  | closeFile
  | closeLines
  | closeDone
deriving DecidableEq, BEq, Repr

/-- The `defer`s registered by the `Follow` goroutine, in registration
order: `close(t.done)`, `close(t.lines)`, `file.Close()`. -/
def followDefers : List ShutdownStep := [.closeDone, .closeLines, .closeFile]

/-- Go runs deferred calls in last-in-first-out order. -/
def runDefers (registered : List ShutdownStep) : List ShutdownStep :=
  registered.reverse

/-- The order of observable actions when the `Follow` goroutine ends:
`tailLoop` returns, then the registered defers run in reverse order. -/
def followShutdownTrace : List ShutdownStep :=
  [.loopExit] ++ runDefers followDefers

example :
    checkFileState ⟨false, none, true, none, none, none⟩ ⟨1, 3⟩ ⟨1, false⟩
      ⟨2, 5⟩ =
    ⟨⟨1, 3⟩, ⟨1, false⟩, ⟨2, 5⟩, false, some .seekErr, false, false⟩ := by
  decide

example :
    checkFileState ⟨true, some ⟨0, some (2, 5)⟩, true, none, none, none⟩
      ⟨1, 3⟩ ⟨1, true⟩ ⟨2, 5⟩ =
    ⟨⟨1, 0⟩, ⟨1, false⟩, ⟨2, 5⟩, false, none, false, false⟩ := by
  decide

example :
    checkFileState
      ⟨true, some ⟨4, some (2, 5)⟩, true, some ⟨4, some (2, 9)⟩, some ⟨7, 0⟩,
        some ⟨4, some (2, 9)⟩⟩
      ⟨1, 3⟩ ⟨1, true⟩ ⟨2, 5⟩ =
    ⟨⟨7, 0⟩, ⟨7, false⟩, ⟨2, 9⟩, true, none, true, false⟩ := by
  decide

/-- A successful reopen is the only path on which `checkFileState` reports
`reopened`, and that path carries no error. -/
theorem checkFileState_reopened_err_none (env : CheckEnv) (file : FileHandle)
    (r : Reader) (fid : fileIdentity)
    (h : (checkFileState env file r fid).reopened = true) :
    (checkFileState env file r fid).err = none := by
  rcases env with ⟨sc, fst, ss, ps, orr, nfs⟩
  cases sc <;>
    rcases fst with _ | info <;>
    cases ss <;>
    rcases ps with _ | pinfo <;>
    rcases orr with _ | nf <;>
    rcases nfs with _ | ninfo <;>
    simp only [checkFileState] at h ⊢ <;>
    split_ifs at h ⊢ <;>
    simp_all

/-- Claim C10: whenever `checkFileState` returns a non-nil error, the handle,
reader and identity it returns are exactly the ones it was given and the
`reopened` flag is `false`. -/
theorem c10_fatal_check_preserves_state (env : CheckEnv) (file : FileHandle)
    (r : Reader) (fid : fileIdentity) (e : CheckErr)
    (h : (checkFileState env file r fid).err = some e) :
    (checkFileState env file r fid).file = file ∧
    (checkFileState env file r fid).reader = r ∧
    (checkFileState env file r fid).fileID = fid ∧
    (checkFileState env file r fid).reopened = false := by
  rcases env with ⟨sc, fst, ss, ps, orr, nfs⟩
  cases sc <;>
    rcases fst with _ | info <;>
    cases ss <;>
    rcases ps with _ | pinfo <;>
    rcases orr with _ | nf <;>
    rcases nfs with _ | ninfo <;>
    simp only [checkFileState] at h ⊢ <;>
    split_ifs at h ⊢ <;>
    simp_all

/-- Witness for C10 at a failing first seek. -/
theorem c10_fatal_check_preserves_state_witness :
    (checkFileState ⟨false, none, true, none, none, none⟩ ⟨1, 3⟩ ⟨1, false⟩
        ⟨2, 5⟩).file = ⟨1, 3⟩ ∧
    (checkFileState ⟨false, none, true, none, none, none⟩ ⟨1, 3⟩ ⟨1, false⟩
        ⟨2, 5⟩).reader = ⟨1, false⟩ ∧
    (checkFileState ⟨false, none, true, none, none, none⟩ ⟨1, 3⟩ ⟨1, false⟩
        ⟨2, 5⟩).fileID = ⟨2, 5⟩ ∧
    (checkFileState ⟨false, none, true, none, none, none⟩ ⟨1, 3⟩ ⟨1, false⟩
        ⟨2, 5⟩).reopened = false :=
  c10_fatal_check_preserves_state ⟨false, none, true, none, none, none⟩
    ⟨1, 3⟩ ⟨1, false⟩ ⟨2, 5⟩ .seekErr (by decide)

/-- Claim C9: when the engine stops, the shutdown steps of the `Follow` goroutine
run in the order: release the file handle, close the output channel, fire the
completion signal — each strictly after the tail loop has returned. -/
theorem c9_shutdown_order :
    followShutdownTrace = [.loopExit, .closeFile, .closeLines, .closeDone] ∧
    followShutdownTrace.indexOf .closeFile <
      followShutdownTrace.indexOf .closeLines ∧
    followShutdownTrace.indexOf .closeLines <
      followShutdownTrace.indexOf .closeDone ∧
    followShutdownTrace.indexOf .loopExit <
      followShutdownTrace.indexOf .closeFile := by
  decide

/-- Claim C6: construction against a path that cannot be opened fails
synchronously with the error wrapped under the `"tailf: "` tag, creates no
`Tailer` (hence no output channel) and starts no background goroutine; the
wrapped message is the tag followed by the underlying message. -/
theorem c6_construction_error_synchronous (env : OpenEnv) (o : Options)
    (e : OpenErr) (baseMsg : OpenErr → GoStr)
    (h : openFile env o = .error e) :
    Follow env o = ⟨false, some (.wrap tailfTag (.base e)), false⟩ ∧
    errString baseMsg (.wrap tailfTag (.base e)) = tailfTag ++ baseMsg e := by
  constructor
  · simp [Follow, h]
  · rfl

/-- Witness for C6 at a missing path. -/
theorem c6_construction_error_synchronous_witness :
    Follow ⟨none, true, 0, none⟩ defaults =
      ⟨false, some (.wrap tailfTag (.base .openFailed)), false⟩ ∧
    errString (fun _ => "no such file or directory".toList)
        (.wrap tailfTag (.base .openFailed)) =
      tailfTag ++ "no such file or directory".toList :=
  c6_construction_error_synchronous ⟨none, true, 0, none⟩ defaults .openFailed
    (fun _ => "no such file or directory".toList) rfl

/-- Claim C7: the two cancellation exits of the tail loop (the top-of-loop
select, and losing the delivery select) return without an error, so the
terminal error slot stays empty. -/
theorem c7_cancellation_no_error :
    (∀ st : LoopState, step st .cancelled = .stopped st none) ∧
    (∀ (st : LoopState) (s : GoStr),
      (step st (.ok s true)).stopInfo = none ∨
      (step st (.ok s true)).stopInfo = some none) ∧
    terminalErrSlot none = none := by
  refine ⟨fun st => rfl, fun st s => ?_, rfl⟩
  simp only [step]
  split_ifs <;> simp [Outcome.stopInfo]

/-- Claim C8: a line that is empty after stripping its terminator (a
terminator immediately following the previous one) is discarded: the loop
continues without emitting anything. -/
theorem c8_empty_line_discarded (st : LoopState) (s : GoStr) (sc : Bool)
    (h : trimRightCRLF (st.pendingLine ++ s) = []) :
    step st (.ok s sc) =
      .next { st with
        file := ⟨st.file.id, st.file.pos + (s.length : Int)⟩
        pendingLine := [] } := by
  have h1 : trimRightCRLF
      (if st.pendingLine = [] then s else st.pendingLine ++ s) = [] := by
    split_ifs with hp
    · simpa [hp] using h
    · exact h
  simp [step, h1]

/-- Witness for C8 on a bare `"\r\n"` terminator. -/
theorem c8_empty_line_discarded_witness :
    step ⟨[], ⟨1, 0⟩, ⟨1, false⟩, ⟨2, 5⟩, [], 0⟩ (.ok ("\r\n".toList) false) =
      .next ⟨[], ⟨1, 2⟩, ⟨1, false⟩, ⟨2, 5⟩, [], 0⟩ :=
  c8_empty_line_discarded ⟨[], ⟨1, 0⟩, ⟨1, false⟩, ⟨2, 5⟩, [], 0⟩
    ("\r\n".toList) false (by decide)

/-- Claim C5: with the held handle healthy and no truncation, a failed
`os.Stat(path)` or a failed `os.Open(path)` of a rotated-to file leaves
`checkFileState` returning its inputs with no error and no reopen, so the
loop simply retries on the next cycle. -/
theorem c5_transient_conditions_not_fatal (env : CheckEnv) (file : FileHandle)
    (r : Reader) (fid : fileIdentity) (info : FileInfo)
    (hseek : env.seekCurOk = true)
    (hfstat : env.fstat = some info)
    (hsz : ¬ info.size < file.pos) :
    (env.pathStat = none →
      checkFileState env file r fid =
        ⟨file, r, fid, false, none, false, false⟩) ∧
    (∀ pinfo : FileInfo, env.pathStat = some pinfo → env.openRes = none →
      checkFileState env file r fid =
        ⟨file, r, fid, false, none, false, false⟩) := by
  constructor
  · intro hp
    simp [checkFileState, hseek, hfstat, hsz, hp]
  · intro pinfo hp ho
    simp only [checkFileState, hseek, hfstat, hsz, hp, ho]
    split_ifs <;> simp_all

/-- Witness for C5: the path momentarily missing during a rotation. -/
theorem c5_transient_conditions_not_fatal_witness :
    checkFileState ⟨true, some ⟨3, some (2, 5)⟩, true, none, none, none⟩
        ⟨1, 3⟩ ⟨1, false⟩ ⟨2, 5⟩ =
      ⟨⟨1, 3⟩, ⟨1, false⟩, ⟨2, 5⟩, false, none, false, false⟩ :=
  (c5_transient_conditions_not_fatal
      ⟨true, some ⟨3, some (2, 5)⟩, true, none, none, none⟩
      ⟨1, 3⟩ ⟨1, false⟩ ⟨2, 5⟩ ⟨3, some (2, 5)⟩ rfl rfl (by decide)).1 rfl

/-- Claim C4: the Windows identity resolver always yields the all-zero
sentinel, and when the identity resolved from the path is the sentinel the
engine never reopens: the held handle is kept, its position changed only by
the size-based truncation branch. -/
theorem c4_sentinel_disables_rotation (env : CheckEnv) (file : FileHandle)
    (r : Reader) (fid : fileIdentity) (pinfo : FileInfo)
    (hstat : env.pathStat = some pinfo)
    (hsent : getFileIdentity pinfo = zeroIdentity) :
    (∀ info : FileInfo, getFileIdentityWindows info = zeroIdentity) ∧
    (checkFileState env file r fid).reopened = false ∧
    (checkFileState env file r fid).file.id = file.id ∧
    ((checkFileState env file r fid).file = file ∨
      ((checkFileState env file r fid).file = ⟨file.id, 0⟩ ∧
        ∃ info : FileInfo, env.fstat = some info ∧ info.size < file.pos)) := by
  refine ⟨fun _ => rfl, ?_⟩
  rcases env with ⟨sc, fst, ss, ps, orr, nfs⟩
  simp only [CheckEnv.pathStat] at hstat
  subst hstat
  cases sc <;>
    rcases fst with _ | info <;>
    cases ss <;>
    simp only [checkFileState] <;>
    split_ifs <;>
    simp_all

/-- Witness for C4: a sentinel path identity with a healthy handle leaves
everything in place. -/
theorem c4_sentinel_disables_rotation_witness :
    (∀ info : FileInfo, getFileIdentityWindows info = zeroIdentity) ∧
    (checkFileState ⟨true, some ⟨5, some (2, 5)⟩, true, some ⟨5, none⟩, none,
        none⟩ ⟨1, 3⟩ ⟨1, false⟩ ⟨2, 5⟩).reopened = false ∧
    (checkFileState ⟨true, some ⟨5, some (2, 5)⟩, true, some ⟨5, none⟩, none,
        none⟩ ⟨1, 3⟩ ⟨1, false⟩ ⟨2, 5⟩).file.id = 1 ∧
    ((checkFileState ⟨true, some ⟨5, some (2, 5)⟩, true, some ⟨5, none⟩, none,
        none⟩ ⟨1, 3⟩ ⟨1, false⟩ ⟨2, 5⟩).file = ⟨1, 3⟩ ∨
      ((checkFileState ⟨true, some ⟨5, some (2, 5)⟩, true, some ⟨5, none⟩,
          none, none⟩ ⟨1, 3⟩ ⟨1, false⟩ ⟨2, 5⟩).file = ⟨1, 0⟩ ∧
        ∃ info : FileInfo,
          (⟨true, some ⟨5, some (2, 5)⟩, true, some ⟨5, none⟩, none,
            none⟩ : CheckEnv).fstat = some info ∧ info.size < (3 : Int))) :=
  c4_sentinel_disables_rotation
    ⟨true, some ⟨5, some (2, 5)⟩, true, some ⟨5, none⟩, none, none⟩
    ⟨1, 3⟩ ⟨1, false⟩ ⟨2, 5⟩ ⟨5, none⟩ rfl rfl

/-- Claim C3: with the handle healthy, no truncation, and the path statable,
openable and statable again, the state-check reopens exactly when the
identity at the path differs from the held one and is not the sentinel; the
reopen returns the new handle and its identity with `reopened = true`,
closing the old handle, and any reopen makes the tail loop clear the
pending partial line. -/
theorem c3_rotation_reopen (env : CheckEnv) (file : FileHandle) (r : Reader)
    (fid : fileIdentity) (info pinfo ninfo : FileInfo) (nf : FileHandle)
    (hseek : env.seekCurOk = true)
    (hfstat : env.fstat = some info)
    (hsz : ¬ info.size < file.pos)
    (hpstat : env.pathStat = some pinfo)
    (hopen : env.openRes = some nf)
    (hnstat : env.newFstat = some ninfo) :
    ((checkFileState env file r fid).reopened = true ↔
      (getFileIdentity pinfo ≠ fid ∧ getFileIdentity pinfo ≠ zeroIdentity)) ∧
    (getFileIdentity pinfo ≠ fid → getFileIdentity pinfo ≠ zeroIdentity →
      checkFileState env file r fid =
        ⟨nf, bufioNewReader nf, getFileIdentity ninfo, true, none, true,
          false⟩) ∧
    (∀ (st : LoopState) (s : GoStr) (env2 : CheckEnv),
      (checkFileState env2 ⟨st.file.id, st.file.pos + (s.length : Int)⟩
          st.reader st.fileID).reopened = true →
      ((step st (.eof s env2)).state).pendingLine = []) := by
  refine ⟨?_, ?_, ?_⟩
  · by_cases hc : getFileIdentity pinfo ≠ fid ∧ getFileIdentity pinfo ≠ zeroIdentity
    · simp [checkFileState, hseek, hfstat, hsz, hpstat, hopen, hnstat, hc]
    · simp only [checkFileState, hseek, hfstat, hsz, hpstat, hopen, hnstat]
      simp [hc]
  · intro h1 h2
    simp [checkFileState, hseek, hfstat, hsz, hpstat, hopen, hnstat, h1, h2]
  · intro st s env2 hro
    have hen := checkFileState_reopened_err_none env2
      ⟨st.file.id, st.file.pos + (s.length : Int)⟩ st.reader st.fileID hro
    simp [step, hen, hro, Outcome.state]

/-- Witness for C3: rotation to inode `(2, 9)` away from `(2, 5)`. -/
theorem c3_rotation_reopen_witness :
    checkFileState
        ⟨true, some ⟨4, some (2, 5)⟩, true, some ⟨4, some (2, 9)⟩,
          some ⟨7, 0⟩, some ⟨4, some (2, 9)⟩⟩
        ⟨1, 3⟩ ⟨1, false⟩ ⟨2, 5⟩ =
      ⟨⟨7, 0⟩, ⟨7, false⟩, ⟨2, 9⟩, true, none, true, false⟩ :=
  (c3_rotation_reopen
      ⟨true, some ⟨4, some (2, 5)⟩, true, some ⟨4, some (2, 9)⟩,
        some ⟨7, 0⟩, some ⟨4, some (2, 9)⟩⟩
      ⟨1, 3⟩ ⟨1, false⟩ ⟨2, 5⟩ ⟨4, some (2, 5)⟩ ⟨4, some (2, 9)⟩
      ⟨4, some (2, 9)⟩ ⟨7, 0⟩ rfl rfl (by decide) rfl rfl rfl).2.1
    (by decide) (by decide)

/-- Claim C2: reads without a terminator (and cancellation or fatal-read
iterations) emit nothing and only grow the pending buffer (which is cleared
exactly on a reopen); a terminator read emits at most one line, whose text is
the pending buffer prepended to the newly read segment with trailing
carriage-return/line-feed characters stripped, and leaves the pending buffer
empty. -/
theorem c2_line_assembly :
    (∀ (st : LoopState) (s : GoStr) (env : CheckEnv),
      ((step st (.eof s env)).state).emitted = st.emitted ∧
      ((step st (.eof s env)).state).pendingLine =
        (if (checkFileState env ⟨st.file.id, st.file.pos + (s.length : Int)⟩
            st.reader st.fileID).reopened then [] else st.pendingLine ++ s)) ∧
    (∀ st : LoopState, ((step st .cancelled).state).emitted = st.emitted) ∧
    (∀ st : LoopState, ((step st .fatal).state).emitted = st.emitted) ∧
    (∀ (st : LoopState) (s : GoStr) (sc : Bool),
      ((step st (.ok s sc)).state).pendingLine = [] ∧
      (((step st (.ok s sc)).state).emitted = st.emitted ∨
        ((step st (.ok s sc)).state).emitted =
          st.emitted ++ [⟨trimRightCRLF (st.pendingLine ++ s), st.clock⟩])) := by
  refine ⟨fun st s env => ?_, fun st => rfl, fun st => rfl,
    fun st s sc => ?_⟩
  · cases hE : (checkFileState env ⟨st.file.id, st.file.pos + (s.length : Int)⟩
        st.reader st.fileID).err with
    | none => simp [step, hE, Outcome.state]
    | some e =>
      have hro : (checkFileState env
          ⟨st.file.id, st.file.pos + (s.length : Int)⟩
          st.reader st.fileID).reopened = false := by
        by_contra hb
        rw [Bool.not_eq_false] at hb
        have := checkFileState_reopened_err_none env
          ⟨st.file.id, st.file.pos + (s.length : Int)⟩ st.reader st.fileID hb
        simp [this] at hE
      simp [step, hE, hro, Outcome.state]
  · have hline : (if st.pendingLine = [] then s else st.pendingLine ++ s) =
        st.pendingLine ++ s := by
      split_ifs with hp
      · simp [hp]
      · rfl
    simp only [step, hline]
    split_ifs <;> simp [Outcome.state]

/-- State, environments and read script for the truncation counterexample:
three bytes `"abc"` are read without a terminator, then the file is observed
truncated to size zero, then the newly written `"xyz\n"` is read. -/
def c1InitState : LoopState := ⟨[], ⟨1, 0⟩, ⟨1, false⟩, ⟨2, 5⟩, [], 0⟩

/-- Environment for a poll cycle with no structural change (size equals the
position, same identity at the path). -/
def c1EnvSame : CheckEnv :=
  ⟨true, some ⟨3, some (2, 5)⟩, true, some ⟨3, some (2, 5)⟩, none, none⟩

/-- Environment for the poll cycle that observes the truncation (size zero
below position three, identity unchanged). -/
def c1EnvTrunc : CheckEnv :=
  ⟨true, some ⟨0, some (2, 5)⟩, true, some ⟨0, some (2, 5)⟩, none, none⟩

/-- Claim C1 counterexample: on the truncation cycle the state-check does
seek the handle back to zero without reopening, but the pending partial-line
content `"abc"` is not discarded, and the bytes buffered before the
truncation appear in the first line emitted after it (`"abcxyz"`). -/
theorem c1_counterexample :
    (checkFileState c1EnvTrunc ⟨1, 3⟩ ⟨1, false⟩ ⟨2, 5⟩).file = ⟨1, 0⟩ ∧
    (checkFileState c1EnvTrunc ⟨1, 3⟩ ⟨1, false⟩ ⟨2, 5⟩).reopened = false ∧
    (run c1InitState
        [.eof ("abc".toList) c1EnvSame, .eof [] c1EnvTrunc]).1.pendingLine =
      "abc".toList ∧
    (run c1InitState
        [.eof ("abc".toList) c1EnvSame, .eof [] c1EnvTrunc,
          .ok ("xyz\n".toList) false]).1.emitted.map Line.text =
      ["abcxyz".toList] := by
  decide

/-- Claim C1 as amended: when the state-check observes the size reported by
the held handle below the read position, the loop iteration keeps the same
handle seeked to offset zero with the reader reset on it (no reopen), while
the pending partial-line content is kept, not discarded. -/
theorem c1_truncation_seeks_zero_keeps_pending (st : LoopState) (s : GoStr)
    (env : CheckEnv) (info : FileInfo)
    (hseek : env.seekCurOk = true)
    (hfstat : env.fstat = some info)
    (hsz : info.size < st.file.pos + (s.length : Int))
    (hseek2 : env.seekStartOk = true) :
    step st (.eof s env) =
      .next { st with
        pendingLine := st.pendingLine ++ s
        file := ⟨st.file.id, 0⟩
        reader := ⟨st.file.id, false⟩ } := by
  simp [step, checkFileState, hseek, hfstat, hsz, hseek2, readerReset]

/-- Witness for the amended C1 at the truncation cycle of the counterexample. -/
theorem c1_truncation_seeks_zero_keeps_pending_witness :
    step ⟨"abc".toList, ⟨1, 3⟩, ⟨1, false⟩, ⟨2, 5⟩, [], 0⟩ (.eof [] c1EnvTrunc) =
      .next ⟨"abc".toList, ⟨1, 0⟩, ⟨1, false⟩, ⟨2, 5⟩, [], 0⟩ :=
  c1_truncation_seeks_zero_keeps_pending
    ⟨"abc".toList, ⟨1, 3⟩, ⟨1, false⟩, ⟨2, 5⟩, [], 0⟩ [] c1EnvTrunc
    ⟨0, some (2, 5)⟩ rfl rfl (by decide) rfl

end Tailf
